import Mathlib

/-!
Verification of the DNS request engine of this repository
(src/external/mpl/bind/dist/lib/dns/request.c) against its natural-language
specification.

The state of a `dns_request_t` is embedded shallowly: each of the five flag
bits of `request->flags` (`DNS_REQUEST_F_CONNECTING`, `_SENDING`,
`_CANCELED`, `_TIMEDOUT`, `_TCP`) becomes a Boolean field, the macros
`DNS_REQUEST_CONNECTING(r)` etc. become field reads, `request->event`
becomes a Boolean presence flag (the C pointer is NULLed by
`isc_task_sendanddetach` when the completion is delivered), and `udpcount`
keeps the C `unsigned int` semantics with the post-decrement wraparound
made explicit.  Event handlers are pure functions from the request state
(plus the incoming event data) to the new state, the completion result they
deliver (if any), and the socket sends they issue.  External collaborators
(dispatch manager, timer service, sockets) are modelled by success knobs in
`Env`; the allocator of this codebase aborts on out-of-memory, so plain
allocation is not a failure source.  Shard locks serialize handler
execution, which is what lets the handlers be modelled as atomic functions.
-/

namespace DnsReq

/-- Result codes (`isc_result_t` / `dns_result_t` values used in request.c).
`failure` stands for any error code propagated from a collaborator whose
exact value request.c does not inspect. -/
inductive IscResult where
  | success
  | timedout
  | canceled
  | nomemory
  | failure
  | shuttingdown
  | blackholed
  | formerr
  | usetcp
  | familymismatch
deriving DecidableEq, Repr

/-- Timer types of the `isc_timer` service used by `set_timer`. -/
inductive TimerKind where
  | once
  | limited
  | inactive
deriving DecidableEq, Repr

/-- Timer events delivered to `req_timeout`: `ISC_TIMEREVENT_TICK` for a
periodic tick, `life` for the terminal expiry (`ISC_TIMEREVENT_LIFE`) or
any other timer event type. -/
inductive TimerEvType where
  | tick
  | life
deriving DecidableEq, Repr

/-- State of one `dns_request_t`.  The five Booleans `connecting`,
`sending`, `canceled`, `timedout`, `tcpflag` are the bits
`DNS_REQUEST_F_CONNECTING/SENDING/CANCELED/TIMEDOUT/TCP` of
`request->flags`; `event` is `request->event != NULL`; `canceling` is the
`canceling` field (ctlevent outstanding); `udpcount` is the `unsigned int`
retry counter; `query` is the used region of `request->query`; `destaddr`
abstracts the socket address stored in `request->destaddr`. -/
structure DnsRequest where
  connecting : Bool
  sending : Bool
  canceled : Bool
  timedout : Bool
  tcpflag : Bool
  event : Bool
  canceling : Bool
  udpcount : Nat
  answer : Option (List Nat)
  hasTimer : Bool
  hasDispentry : Bool
  hasDispatch : Bool
  query : List Nat
  destaddr : Nat
deriving DecidableEq, Repr

/-- A fresh request as initialized by `new_request`: flags zero, no event,
no timer, no dispatch, `canceling` false, `udpcount` zero. -/
def newRequestModel : DnsRequest :=
  { connecting := false
    sending := false
    canceled := false
    timedout := false
    tcpflag := false
    event := false
    canceling := false
    udpcount := 0
    answer := none
    hasTimer := false
    hasDispentry := false
    hasDispatch := false
    query := []
    destaddr := 0 }

/-- Output of one event handler invocation: the new request state, the
completion result delivered to the caller task (if any), and the list of
socket sends issued, each recorded as (payload bytes, address argument of
`isc_socket_sendto2`, with `none` for NULL). -/
structure HandlerOut where
  req : DnsRequest
  completion : Option IscResult
  sends : List (List Nat × Option Nat)
deriving DecidableEq, Repr

/-- `dns_request_usedtcp`: reports the `DNS_REQUEST_F_TCP` bit. -/
def dns_request_usedtcp (r : DnsRequest) : Bool :=
  r.tcpflag

/-- `send_if_done`: deliver the completion event iff
`request->event != NULL && !request->canceling`.  Delivery goes through
`req_sendevent`, whose `isc_task_sendanddetach` NULLs `request->event`. -/
def send_if_done (r : DnsRequest) (result : IscResult) :
    DnsRequest × Option IscResult :=
  if r.event && !r.canceling then
    ({ r with event := false }, some result)
  else
    (r, none)

/-- `req_cancel`: set `DNS_REQUEST_F_CANCELED`, detach the timer, cancel
any in-flight connect/send on the socket (an external effect), remove the
dispatch entry and detach the dispatch. -/
def req_cancel (r : DnsRequest) : DnsRequest :=
  { r with
    canceled := true
    hasTimer := false
    hasDispentry := false
    hasDispatch := false }

/-- `req_send`: set `DNS_REQUEST_F_SENDING` and hand the used region of
`request->query` to `isc_socket_sendto2` with the given address argument.
The source `INSIST`s that the sendto call itself returns `ISC_R_SUCCESS`,
so the modelled call always succeeds. -/
def req_send_m (r : DnsRequest) (addr : Option Nat) :
    DnsRequest × (List Nat × Option Nat) :=
  ({ r with sending := true }, (r.query, addr))

/-- `req_connected` handler: clear `CONNECTING`; if `CANCELED` deliver the
delayed terminal result (`TIMEDOUT` if that flag is set, else `CANCELED`);
otherwise on connect success issue the send, and on failure cancel and
deliver `ISC_R_CANCELED`. -/
def req_connected (r : DnsRequest) (seventResult : IscResult) : HandlerOut :=
  let r1 : DnsRequest := { r with connecting := false }
  if r1.canceled then
    if r1.timedout then
      let p := send_if_done r1 IscResult.timedout
      { req := p.1, completion := p.2, sends := [] }
    else
      let p := send_if_done r1 IscResult.canceled
      { req := p.1, completion := p.2, sends := [] }
  else
    if seventResult = IscResult.success then
      let p := req_send_m r1 none
      { req := p.1, completion := none, sends := [p.2] }
    else
      let p := send_if_done (req_cancel r1) IscResult.canceled
      { req := p.1, completion := p.2, sends := [] }

/-- `req_senddone` handler: clear `SENDING`; if `CANCELED` deliver the
delayed terminal result; if the send failed cancel and deliver
`ISC_R_CANCELED`; otherwise wait for the dispatcher or the timer. -/
def req_senddone (r : DnsRequest) (seventResult : IscResult) : HandlerOut :=
  let r1 : DnsRequest := { r with sending := false }
  if r1.canceled then
    if r1.timedout then
      let p := send_if_done r1 IscResult.timedout
      { req := p.1, completion := p.2, sends := [] }
    else
      let p := send_if_done r1 IscResult.canceled
      { req := p.1, completion := p.2, sends := [] }
  else
    if seventResult ≠ IscResult.success then
      let p := send_if_done (req_cancel r1) IscResult.canceled
      { req := p.1, completion := p.2, sends := [] }
    else
      { req := r1, completion := none, sends := [] }

/-- `req_response` handler: on dispatcher success copy the response buffer
into `request->answer`; in all cases remove the dispatch entry, run
`req_cancel` (releasing timer and dispatch), and hand the dispatcher result
to `send_if_done`. -/
def req_response (r : DnsRequest) (deventResult : IscResult)
    (buf : List Nat) : HandlerOut :=
  let pr : DnsRequest × IscResult :=
    if deventResult = IscResult.success then
      ({ r with answer := some buf }, IscResult.success)
    else
      (r, deventResult)
  let r1 : DnsRequest := req_cancel { pr.1 with hasDispentry := false }
  let p := send_if_done r1 pr.2
  { req := p.1, completion := p.2, sends := [] }

/-- The C post-decrement `request->udpcount--` on an `unsigned int`:
decrement with wraparound at zero. -/
def udpdec (u : Nat) : Nat :=
  if u = 0 then 4294967295 else u - 1

/-- `req_timeout` handler.  The guard is exactly the source's
`event->ev_type == ISC_TIMEREVENT_TICK && request->udpcount-- != 0`: the
counter is post-decremented whenever the event is a tick (with unsigned
wraparound when it is already zero), and the retry branch is taken when its
old value was nonzero.  The retry branch re-issues the send to the saved
`request->destaddr` only when `SENDING` is not already set.  Every other
case sets `TIMEDOUT`, cancels the request and delivers `ISC_R_TIMEDOUT`. -/
def req_timeout (r : DnsRequest) (ev : TimerEvType) : HandlerOut :=
  if ev = TimerEvType.tick then
    let old := r.udpcount
    let r1 : DnsRequest := { r with udpcount := udpdec old }
    if old ≠ 0 then
      if !r1.sending then
        let p := req_send_m r1 (some r1.destaddr)
        { req := p.1, completion := none, sends := [p.2] }
      else
        { req := r1, completion := none, sends := [] }
    else
      let r2 : DnsRequest := { r1 with timedout := true }
      let p := send_if_done (req_cancel r2) IscResult.timedout
      { req := p.1, completion := p.2, sends := [] }
  else
    let r2 : DnsRequest := { r with timedout := true }
    let p := send_if_done (req_cancel r2) IscResult.timedout
    { req := p.1, completion := p.2, sends := [] }

/-- `do_cancel`: the handler of the posted control event.  It clears
`canceling`, runs `req_cancel` unless `CANCELED` is already set, and calls
`send_if_done` with `ISC_R_CANCELED`. -/
def do_cancel (r : DnsRequest) : HandlerOut :=
  let r1 : DnsRequest := { r with canceling := false }
  let r2 : DnsRequest := if !r1.canceled then req_cancel r1 else r1
  let p := send_if_done r2 IscResult.canceled
  { req := p.1, completion := p.2, sends := [] }

/-- `dns_request_cancel`: post the control event to the caller task and set
`canceling`, but only when neither `canceling` nor `CANCELED` is set.  The
Boolean result records whether the control event was posted. -/
def dns_request_cancel (r : DnsRequest) : DnsRequest × Bool :=
  if !r.canceling && !r.canceled then
    ({ r with canceling := true }, true)
  else
    (r, false)

/-- Iterate `dns_request_cancel` and count how many control events the
calls posted in total. -/
def cancelN (r : DnsRequest) : Nat → DnsRequest × Nat
  | 0 => (r, 0)
  | n + 1 =>
      let p := dns_request_cancel r
      let q := cancelN p.1 n
      (q.1, (if p.2 then 1 else 0) + q.2)

/-- `isblackholed`: the destination is dropped when the dispatch manager
has a blackhole ACL and `dns_acl_match` reports a positive match for the
destination address. -/
def isblackholed (blackhole : Option (Nat → Int)) (destaddr : Nat) : Bool :=
  match blackhole with
  | none => false
  | some acl => decide (0 < acl destaddr)

/-- The shared UDP-retransmission-period derivation of both factories
(request.c lines 728-733 and 919-924): when the caller passes
`udptimeout == 0` and `udpretries != 0`, the period becomes
`timeout / (udpretries + 1)`, bumped to 1 when that integer division is
zero. -/
def deriveUdpTimeout (timeout udptimeout udpretries : Nat) : Nat :=
  if udptimeout = 0 ∧ udpretries ≠ 0 then
    let u := timeout / (udpretries + 1)
    if u = 0 then 1 else u
  else
    udptimeout

/-- The timer type chosen by `set_timer`:
`udpresend != 0 ? isc_timertype_limited : isc_timertype_once`. -/
def set_timer_kind (udpresend : Nat) : TimerKind :=
  if udpresend ≠ 0 then TimerKind.limited else TimerKind.once

/-- `isc_buffer_putuint16`: the value is truncated to `uint16_t` and
stored as two big-endian bytes. -/
def putuint16 (v : Nat) : List Nat :=
  let w := v % 65536
  [w >>> 8, w &&& 255]

/-- The message-ID patch of `dns_request_createraw` (lines 803-809): after
skipping the 2-byte length prefix when TCP, the first two bytes of the DNS
header are overwritten with `(id >> 8) & 0xff` and `id & 0xff`. -/
def patchId (q : List Nat) (off id : Nat) : List Nat :=
  (q.set off ((id >>> 8) &&& 255)).set (off + 1) (id &&& 255)

/-- The framing step of `req_render` (lines 1110-1124): with the `TCP`
option the buffer is the big-endian `u16` length followed by the rendered
message; without it, a rendered size above 512 fails with `DNS_R_USETCP`,
otherwise the buffer is exactly the rendered message. -/
def req_render_frame (optTCP : Bool) (rendered : List Nat) :
    Except IscResult (List Nat) :=
  if optTCP then
    Except.ok (putuint16 rendered.length ++ rendered)
  else if 512 < rendered.length then
    Except.error IscResult.usetcp
  else
    Except.ok rendered

/-- Success knobs for the external collaborators used during request
creation.  `getDispatchOk1`/`addresponseOk1` govern the first
`get_dispatch`/`dns_dispatch_addresponse` attempt, the `2` variants the
second attempt (the `FIXED_ID` retry of `createraw`, or the `use_tcp`
retry of `createvia`).  `connectedOut1`/`connectedOut2` are the
`connected` out-parameter produced by attaching to an existing TCP
dispatch on the corresponding attempt (`SHARE` only widens which existing
dispatches can match, which is abstracted by these knobs).  `assignedId`
is the message ID allocated by the dispatch when `FIXED_ID` is absent. -/
structure Env where
  exiting : Bool
  timerCreateOk : Bool
  getDispatchOk1 : Bool
  getDispatchOk2 : Bool
  connectedOut1 : Bool
  connectedOut2 : Bool
  addresponseOk1 : Bool
  addresponseOk2 : Bool
  assignedId : Nat
  setTimerOk : Bool
  connectOk : Bool
deriving DecidableEq, Repr

/-- Externally visible effects of one factory call.  `everLinked` /
`everIref` record whether the request was ever appended to the engine's
live list / whether `requestmgr_attach` incremented `iref`;
`unlinked`/`destroyed` record the failure unwind; `timerSet` records the
arguments of the `set_timer` call (absolute timeout, interval, timer
type); `sends` records the payload and address handed to
`isc_socket_sendto2`; `completionSent` records whether a completion event
was delivered to the caller during creation (the factories never do). -/
structure CreateTrace where
  allocatedRequest : Bool := false
  timerCreated : Bool := false
  getDispatchCalls : Nat := 0
  addresponseCalls : Nat := 0
  retriedNewTcp : Bool := false
  everLinked : Bool := false
  everIref : Bool := false
  unlinked : Bool := false
  destroyed : Bool := false
  connectIssued : Bool := false
  timerSet : Option (Nat × Nat × TimerKind) := none
  sends : List (List Nat × Option Nat) := []
  completionSent : Bool := false
deriving DecidableEq, Repr

/-- Tail shared by both factories (request.c lines 811-844 and 996-1029):
under the engine mutex refuse with `ISC_R_SHUTTINGDOWN` if `exiting`,
otherwise attach to the manager (`iref++`), pick a shard and link the
request; then arm the timer via `set_timer(timer, timeout, tcp ? 0 :
udptimeout)`; then either issue `connect` (TCP and not yet connected),
setting `CONNECTING | TCP`, or issue the first send with a NULL address
when the dispatch is already connected.  Failures after linking unlink and
destroy the request. -/
def create_finish (env : Env) (tcp connected : Bool) (timeout udpt destaddr : Nat)
    (req : DnsRequest) (t : CreateTrace) :
    Except IscResult DnsRequest × CreateTrace :=
  if env.exiting then
    (Except.error IscResult.shuttingdown, { t with destroyed := true })
  else
    let t1 : CreateTrace := { t with everIref := true, everLinked := true }
    let interval := if tcp then 0 else udpt
    let t2 : CreateTrace :=
      { t1 with timerSet := some (timeout, interval, set_timer_kind interval) }
    if env.setTimerOk = false then
      (Except.error IscResult.failure, { t2 with unlinked := true, destroyed := true })
    else
      let req1 : DnsRequest := { req with destaddr := destaddr }
      if tcp && !connected then
        if env.connectOk = false then
          (Except.error IscResult.failure, { t2 with unlinked := true, destroyed := true })
        else
          (Except.ok { req1 with connecting := true, tcpflag := true },
           { t2 with connectIssued := true })
      else
        let p := req_send_m req1 (if connected then none else some destaddr)
        (Except.ok p.1, { t2 with sends := t2.sends ++ [p.2] })

/-- `dns_request_createraw`.  The blackhole check precedes `new_request`;
the derived UDP period and `udpcount := udpretries` come next; then the
timer and completion event are created; a used region shorter than
`DNS_MESSAGE_HEADERLEN` (12) or longer than 65535 is `DNS_R_FORMERR`; TCP
is forced by the `TCP` option or a length above 512; `get_dispatch` and
`dns_dispatch_addresponse` follow, with one `goto again` retry using
`newtcp = true` and `connected = false` when `FIXED_ID` is set and the
first registration fails; the wire buffer is the optional 2-byte length
prefix plus the message with the ID patched in; the common tail is
`create_finish`. -/
def dns_request_createraw (env : Env) (blackhole : Option (Nat → Int))
    (msg : List Nat) (optTCP optFixedid : Bool)
    (timeout udptimeout udpretries destaddr : Nat) :
    Except IscResult DnsRequest × CreateTrace :=
  if isblackholed blackhole destaddr then
    (Except.error IscResult.blackholed, {})
  else
    let udpt := deriveUdpTimeout timeout udptimeout udpretries
    let req : DnsRequest := { newRequestModel with udpcount := udpretries }
    let t : CreateTrace := { allocatedRequest := true }
    if env.timerCreateOk = false then
      (Except.error IscResult.nomemory, { t with destroyed := true })
    else
      let req1 : DnsRequest := { req with hasTimer := true, event := true }
      let t1 : CreateTrace := { t with timerCreated := true }
      if msg.length < 12 ∨ 65535 < msg.length then
        (Except.error IscResult.formerr, { t1 with destroyed := true })
      else
        let tcp := optTCP || decide (512 < msg.length)
        if env.getDispatchOk1 = false then
          (Except.error IscResult.failure,
           { t1 with getDispatchCalls := 1, destroyed := true })
        else
          let t2 : CreateTrace := { t1 with getDispatchCalls := 1 }
          let req2 : DnsRequest := { req1 with hasDispatch := true }
          let connected := tcp && env.connectedOut1
          let id : Nat :=
            if optFixedid then ((msg.getD 0 0) <<< 8) ||| msg.getD 1 0
            else env.assignedId
          let query :=
            patchId ((if tcp then putuint16 msg.length else []) ++ msg)
              (if tcp then 2 else 0) id
          if env.addresponseOk1 then
            let t3 : CreateTrace := { t2 with addresponseCalls := 1 }
            let req3 : DnsRequest := { req2 with hasDispentry := true, query := query }
            create_finish env tcp connected timeout udpt destaddr req3 t3
          else
            let t3 : CreateTrace := { t2 with addresponseCalls := 1 }
            if optFixedid then
              let t4 : CreateTrace := { t3 with retriedNewTcp := true }
              if env.getDispatchOk2 = false then
                (Except.error IscResult.failure,
                 { t4 with getDispatchCalls := 2, destroyed := true })
              else
                let t5 : CreateTrace := { t4 with getDispatchCalls := 2 }
                if env.addresponseOk2 then
                  let t6 : CreateTrace := { t5 with addresponseCalls := 2 }
                  let req3 : DnsRequest :=
                    { req2 with hasDispentry := true, query := query }
                  create_finish env tcp false timeout udpt destaddr req3 t6
                else
                  (Except.error IscResult.failure,
                   { t5 with addresponseCalls := 2, destroyed := true })
            else
              (Except.error IscResult.failure, { t3 with destroyed := true })

/-- `dns_request_createvia`.  A source/destination family mismatch fails
first with `ISC_R_FAMILYMISMATCH`; the blackhole check precedes
`new_request`; the UDP period derivation, `udpcount`, timer and event
creation mirror `createraw`.  The `use_tcp` loop renders the message after
registering a response slot; when rendering reports `DNS_R_USETCP` (UDP
and rendered size above 512) the response slot and dispatch are dropped,
the `TCP` option is forced, and the loop runs once more.  `rendered` is
the rendered DNS message before framing (TSIG and compression are inside
the message codec, outside this engine). -/
def dns_request_createvia (env : Env) (blackhole : Option (Nat → Int))
    (rendered : List Nat) (familyMismatch : Bool) (optTCP : Bool)
    (timeout udptimeout udpretries destaddr : Nat) :
    Except IscResult DnsRequest × CreateTrace :=
  if familyMismatch then
    (Except.error IscResult.familymismatch, {})
  else if isblackholed blackhole destaddr then
    (Except.error IscResult.blackholed, {})
  else
    let udpt := deriveUdpTimeout timeout udptimeout udpretries
    let req : DnsRequest := { newRequestModel with udpcount := udpretries }
    let t : CreateTrace := { allocatedRequest := true }
    if env.timerCreateOk = false then
      (Except.error IscResult.nomemory, { t with destroyed := true })
    else
      let req1 : DnsRequest := { req with hasTimer := true, event := true }
      let t1 : CreateTrace := { t with timerCreated := true }
      if env.getDispatchOk1 = false then
        (Except.error IscResult.failure,
         { t1 with getDispatchCalls := 1, destroyed := true })
      else
        let t2 : CreateTrace := { t1 with getDispatchCalls := 1 }
        let req2 : DnsRequest := { req1 with hasDispatch := true }
        let connected := optTCP && env.connectedOut1
        if env.addresponseOk1 = false then
          (Except.error IscResult.failure,
           { t2 with addresponseCalls := 1, destroyed := true })
        else
          let t3 : CreateTrace := { t2 with addresponseCalls := 1 }
          let req3 : DnsRequest := { req2 with hasDispentry := true }
          match req_render_frame optTCP rendered with
          | Except.ok query =>
              create_finish env optTCP connected timeout udpt destaddr
                { req3 with query := query } t3
          | Except.error _ =>
              let req4 : DnsRequest :=
                { req3 with hasDispentry := false, hasDispatch := false }
              if env.getDispatchOk2 = false then
                (Except.error IscResult.failure,
                 { t3 with getDispatchCalls := 2, destroyed := true })
              else
                let t4 : CreateTrace := { t3 with getDispatchCalls := 2 }
                let req5 : DnsRequest := { req4 with hasDispatch := true }
                let connected2 := env.connectedOut2
                if env.addresponseOk2 = false then
                  (Except.error IscResult.failure,
                   { t4 with addresponseCalls := 2, destroyed := true })
                else
                  let t5 : CreateTrace := { t4 with addresponseCalls := 2 }
                  let req6 : DnsRequest := { req5 with hasDispentry := true }
                  match req_render_frame true rendered with
                  | Except.ok query =>
                      create_finish env true connected2 timeout udpt destaddr
                        { req6 with query := query } t5
                  | Except.error e =>
                      (Except.error e, { t5 with destroyed := true })

/-! Concrete sample inputs used to evaluate the model at specific points. -/

/-- A request whose TCP connect is still in flight while its control
(cancel) event has been posted: `CONNECTING` set, event allocated,
`canceling` set by `dns_request_cancel`. -/
def connectingCancelReq : DnsRequest :=
  { newRequestModel with
    connecting := true
    tcpflag := true
    event := true
    canceling := true
    hasTimer := true
    hasDispentry := true
    hasDispatch := true }

/-- A request waiting on a UDP send completion (`SENDING` set) with its
completion event still allocated. -/
def sendingReq : DnsRequest :=
  { newRequestModel with
    sending := true
    event := true
    udpcount := 2
    hasTimer := true
    hasDispentry := true
    hasDispatch := true
    query := [18, 52, 1]
    destaddr := 9 }

/-- An environment in which every collaborator succeeds and no TCP
connection is reused. -/
def envAllOk : Env :=
  { exiting := false
    timerCreateOk := true
    getDispatchOk1 := true
    getDispatchOk2 := true
    connectedOut1 := false
    connectedOut2 := false
    addresponseOk1 := true
    addresponseOk2 := true
    assignedId := 4660
    setTimerOk := true
    connectOk := true }

/-- A 14-byte wire message (header length 12 ≤ 14 ≤ 512): caller message
ID bytes 0x12 0x34. -/
def msg14 : List Nat :=
  [18, 52, 0, 0, 0, 0, 0, 0, 0, 0, 0, 0, 0, 1]

/-- `envAllOk` with an already-connected TCP dispatch found on the first
`get_dispatch` attempt. -/
def envConn : Env :=
  { envAllOk with connectedOut1 := true }

/-- `envAllOk` with the first `dns_dispatch_addresponse` attempt failing
(ID collision). -/
def envRetry : Env :=
  { envAllOk with addresponseOk1 := false }

/-- `envAllOk` with the engine already exiting at registration time. -/
def envExit : Env :=
  { envAllOk with exiting := true }

/-- The message ID used by `dns_request_createraw` (lines 773-780): the
caller's ID from the first two wire bytes under `FIXED_ID`, else the ID
assigned by `dns_dispatch_addresponse`. -/
def rawId (msg : List Nat) (optFixedid : Bool) (assignedId : Nat) : Nat :=
  if optFixedid then ((msg.getD 0 0) <<< 8) ||| msg.getD 1 0 else assignedId

/-- `envAllOk` with the dispatch assigning message ID 0xABCD. -/
def envId : Env :=
  { envAllOk with assignedId := 43981 }

/-- A concrete forced-TCP `createraw` run (fresh connection). -/
def rawTcpOut : Except IscResult DnsRequest × CreateTrace :=
  dns_request_createraw envId none msg14 true false 5 0 0 9

/-- A concrete UDP `createraw` run with two retries. -/
def rawUdpOut : Except IscResult DnsRequest × CreateTrace :=
  dns_request_createraw envId none msg14 false false 9 0 2 9

/-- A concrete UDP `createraw` run with no retries and no caller-supplied
retransmission interval. -/
def rawOnceOut : Except IscResult DnsRequest × CreateTrace :=
  dns_request_createraw envAllOk none msg14 false false 5 0 0 9

/-- A concrete UDP `createvia` run with two retries. -/
def viaUdpOut : Except IscResult DnsRequest × CreateTrace :=
  dns_request_createvia envAllOk none msg14 false false 9 0 2 9

instance {ε α : Type} [DecidableEq ε] [DecidableEq α] :
    DecidableEq (Except ε α) := fun a b =>
  match a, b with
  | Except.ok x, Except.ok y =>
      if h : x = y then isTrue (by rw [h]) else isFalse (by simp [h])
  | Except.error x, Except.error y =>
      if h : x = y then isTrue (by rw [h]) else isFalse (by simp [h])
  | Except.ok _, Except.error _ => isFalse (by simp)
  | Except.error _, Except.ok _ => isFalse (by simp)

/-- The first component of a factory outcome when it is `Except.ok`. -/
def okReq : Except IscResult DnsRequest × CreateTrace → Option DnsRequest
  | (Except.ok r, _) => some r
  | (Except.error _, _) => none

/-- Whether a factory outcome admitted a request. -/
def resultOk (o : Except IscResult DnsRequest × CreateTrace) : Bool :=
  match o.1 with
  | Except.ok _ => true
  | Except.error _ => false

/-! Helper lemmas. -/

lemma cancel_stable (r : DnsRequest) (h : (r.canceling || r.canceled) = true) :
    dns_request_cancel r = (r, false) := by
  unfold dns_request_cancel
  rcases Bool.or_eq_true_iff.mp h with h1 | h1 <;> simp [h1]

lemma cancelN_stable (r : DnsRequest) (h : (r.canceling || r.canceled) = true) :
    ∀ n, cancelN r n = (r, 0) := by
  intro n
  induction n with
  | zero => rfl
  | succ n ih => simp [cancelN, cancel_stable r h, ih]

lemma cancel_posted_state (r : DnsRequest)
    (h : (!r.canceling && !r.canceled) = true) :
    dns_request_cancel r = ({ r with canceling := true }, true) := by
  unfold dns_request_cancel
  simp [h]

lemma cancelN_le_one (r : DnsRequest) (n : Nat) : (cancelN r n).2 ≤ 1 := by
  cases n with
  | zero => simp [cancelN]
  | succ n =>
      cases hc : r.canceling with
      | true =>
          have hs : (r.canceling || r.canceled) = true := by simp [hc]
          simp [cancelN_stable r hs]
      | false =>
          cases hd : r.canceled with
          | true =>
              have hs : (r.canceling || r.canceled) = true := by simp [hd]
              simp [cancelN_stable r hs]
          | false =>
              have hg : (!r.canceling && !r.canceled) = true := by simp [hc, hd]
              have hs : (({ r with canceling := true } : DnsRequest).canceling ||
                  ({ r with canceling := true } : DnsRequest).canceled) = true := by
                simp
              simp [cancelN, cancel_posted_state r hg, cancelN_stable _ hs n]

lemma cancelN_succ_state (r : DnsRequest) (n : Nat) :
    (cancelN r (n + 1)).1 = (dns_request_cancel r).1 := by
  cases hc : r.canceling with
  | true =>
      have hs : (r.canceling || r.canceled) = true := by simp [hc]
      simp [cancelN_stable r hs, cancel_stable r hs]
  | false =>
      cases hd : r.canceled with
      | true =>
          have hs : (r.canceling || r.canceled) = true := by simp [hd]
          simp [cancelN_stable r hs, cancel_stable r hs]
      | false =>
          have hg : (!r.canceling && !r.canceled) = true := by simp [hc, hd]
          have hs : (({ r with canceling := true } : DnsRequest).canceling ||
              ({ r with canceling := true } : DnsRequest).canceled) = true := by
            simp
          simp [cancelN, cancel_posted_state r hg, cancelN_stable _ hs n]

lemma create_finish_exiting (env : Env) (tcp connected : Bool)
    (timeout udpt destaddr : Nat) (req : DnsRequest) (t : CreateTrace)
    (hex : env.exiting = true) :
    create_finish env tcp connected timeout udpt destaddr req t =
      (Except.error IscResult.shuttingdown, { t with destroyed := true }) := by
  simp [create_finish, hex]

lemma create_finish_ok (env : Env) (tcp connected : Bool)
    (timeout udpt destaddr : Nat) (req : DnsRequest) (t : CreateTrace)
    (r : DnsRequest) (t2 : CreateTrace)
    (h : create_finish env tcp connected timeout udpt destaddr req t =
      (Except.ok r, t2)) :
    env.exiting = false ∧
    r.udpcount = req.udpcount ∧
    r.query = req.query ∧
    r.destaddr = destaddr ∧
    r.tcpflag = (req.tcpflag || (tcp && !connected)) ∧
    t2.everLinked = true ∧
    t2.everIref = true ∧
    t2.completionSent = t.completionSent ∧
    t2.timerSet = some (timeout, (if tcp then 0 else udpt),
      set_timer_kind (if tcp then 0 else udpt)) ∧
    ((tcp && !connected) = true → t2.connectIssued = true ∧ r.connecting = true) ∧
    ((tcp && !connected) = false →
      t2.sends = t.sends ++ [(req.query, if connected then none else some destaddr)] ∧
      r.sending = true) := by
  cases hex : env.exiting with
  | true =>
      rw [create_finish_exiting env tcp connected timeout udpt destaddr req t hex] at h
      exact absurd h (by simp)
  | false =>
      cases hst : env.setTimerOk with
      | false => simp [create_finish, hex, hst] at h
      | true =>
          cases tcp with
          | false =>
              simp [create_finish, req_send_m, hex, hst] at h
              obtain ⟨h1, h2⟩ := h
              subst h1
              subst h2
              refine ⟨rfl, ?_, ?_, ?_, ?_, ?_, ?_, ?_, ?_, ?_, ?_⟩ <;> simp
          | true =>
              cases connected with
              | true =>
                  simp [create_finish, req_send_m, hex, hst] at h
                  obtain ⟨h1, h2⟩ := h
                  subst h1
                  subst h2
                  refine ⟨rfl, ?_, ?_, ?_, ?_, ?_, ?_, ?_, ?_, ?_, ?_⟩ <;> simp
              | false =>
                  cases hco : env.connectOk with
                  | false => simp [create_finish, req_send_m, hex, hst, hco] at h
                  | true =>
                      simp [create_finish, req_send_m, hex, hst, hco] at h
                      obtain ⟨h1, h2⟩ := h
                      subst h1
                      subst h2
                      refine ⟨rfl, ?_, ?_, ?_, ?_, ?_, ?_, ?_, ?_, ?_, ?_⟩ <;> simp

lemma frame_true_ok (rendered : List Nat) :
    req_render_frame true rendered =
      Except.ok (putuint16 rendered.length ++ rendered) := by
  simp [req_render_frame]

lemma frame_ok_tcp (optTCP : Bool) (rendered q : List Nat)
    (h : req_render_frame optTCP rendered = Except.ok q) :
    (optTCP || decide (512 < rendered.length)) = optTCP := by
  cases optTCP with
  | true => simp
  | false =>
      unfold req_render_frame at h
      by_cases hl : 512 < rendered.length
      · simp [hl] at h
      · simp [hl]

lemma frame_error (optTCP : Bool) (rendered : List Nat) (e : IscResult)
    (h : req_render_frame optTCP rendered = Except.error e) :
    optTCP = false ∧ 512 < rendered.length := by
  cases optTCP with
  | true => simp [req_render_frame] at h
  | false =>
      refine ⟨rfl, ?_⟩
      by_cases hl : 512 < rendered.length
      · exact hl
      · simp [req_render_frame, hl] at h

lemma createraw_ok_udpcount
    (env : Env) (bh : Option (Nat → Int)) (msg : List Nat)
    (optTCP optFixedid : Bool) (timeout udptimeout udpretries destaddr : Nat)
    (r : DnsRequest) (t : CreateTrace)
    (h : dns_request_createraw env bh msg optTCP optFixedid timeout udptimeout
      udpretries destaddr = (Except.ok r, t)) :
    r.udpcount = udpretries := by
  simp only [dns_request_createraw] at h
  split at h
  · exact absurd h (by simp)
  · split at h
    · exact absurd h (by simp)
    · split at h
      · exact absurd h (by simp)
      · split at h
        · exact absurd h (by simp)
        · split at h
          · simpa using (create_finish_ok _ _ _ _ _ _ _ _ _ _ h).2.1
          · split at h
            · split at h
              · exact absurd h (by simp)
              · split at h
                · simpa using (create_finish_ok _ _ _ _ _ _ _ _ _ _ h).2.1
                · exact absurd h (by simp)
            · exact absurd h (by simp)

lemma createvia_ok_udpcount
    (env : Env) (bh : Option (Nat → Int)) (rendered : List Nat)
    (familyMismatch optTCP : Bool) (timeout udptimeout udpretries destaddr : Nat)
    (r : DnsRequest) (t : CreateTrace)
    (h : dns_request_createvia env bh rendered familyMismatch optTCP timeout
      udptimeout udpretries destaddr = (Except.ok r, t)) :
    r.udpcount = udpretries := by
  simp only [dns_request_createvia] at h
  split at h
  · exact absurd h (by simp)
  · split at h
    · exact absurd h (by simp)
    · split at h
      · exact absurd h (by simp)
      · split at h
        · exact absurd h (by simp)
        · split at h
          · exact absurd h (by simp)
          · split at h
            · simpa using (create_finish_ok _ _ _ _ _ _ _ _ _ _ h).2.1
            · split at h
              · exact absurd h (by simp)
              · split at h
                · exact absurd h (by simp)
                · split at h
                  · simpa using (create_finish_ok _ _ _ _ _ _ _ _ _ _ h).2.1
                  · exact absurd h (by simp)

lemma patchId_cons (pfx : List Nat) (m0 m1 : Nat) (rest : List Nat) (id : Nat) :
    patchId (pfx ++ (m0 :: m1 :: rest)) pfx.length id =
      pfx ++ ((id >>> 8) &&& 255) :: (id &&& 255) :: rest := by
  unfold patchId
  simp

lemma createraw_ok_query
    (env : Env) (bh : Option (Nat → Int)) (msg : List Nat)
    (optTCP optFixedid : Bool) (timeout udptimeout udpretries destaddr : Nat)
    (r : DnsRequest) (t : CreateTrace)
    (h : dns_request_createraw env bh msg optTCP optFixedid timeout udptimeout
      udpretries destaddr = (Except.ok r, t)) :
    r.query =
      patchId ((if (optTCP || decide (512 < msg.length)) then putuint16 msg.length
        else []) ++ msg)
        (if (optTCP || decide (512 < msg.length)) then 2 else 0)
        (rawId msg optFixedid env.assignedId) ∧
    12 ≤ msg.length ∧ msg.length ≤ 65535 := by
  simp only [dns_request_createraw] at h
  split at h
  · exact absurd h (by simp)
  · split at h
    · exact absurd h (by simp)
    · split at h
      · exact absurd h (by simp)
      next hlen =>
        split at h
        · exact absurd h (by simp)
        · split at h
          · exact ⟨by simpa [rawId] using (create_finish_ok _ _ _ _ _ _ _ _ _ _ h).2.2.1,
              by omega, by omega⟩
          · split at h
            next hfx =>
              split at h
              · exact absurd h (by simp)
              · split at h
                · exact ⟨by simpa [rawId, hfx] using
                    (create_finish_ok _ _ _ _ _ _ _ _ _ _ h).2.2.1,
                    by omega, by omega⟩
                · exact absurd h (by simp)
            next hfx => exact absurd h (by simp)

lemma createraw_ok_timer
    (env : Env) (bh : Option (Nat → Int)) (msg : List Nat)
    (optTCP optFixedid : Bool) (timeout udptimeout udpretries destaddr : Nat)
    (r : DnsRequest) (t : CreateTrace)
    (h : dns_request_createraw env bh msg optTCP optFixedid timeout udptimeout
      udpretries destaddr = (Except.ok r, t)) :
    t.timerSet = some (timeout,
      (if (optTCP || decide (512 < msg.length)) then 0
       else deriveUdpTimeout timeout udptimeout udpretries),
      set_timer_kind (if (optTCP || decide (512 < msg.length)) then 0
       else deriveUdpTimeout timeout udptimeout udpretries)) := by
  simp only [dns_request_createraw] at h
  split at h
  · exact absurd h (by simp)
  · split at h
    · exact absurd h (by simp)
    · split at h
      · exact absurd h (by simp)
      · split at h
        · exact absurd h (by simp)
        · split at h
          · exact (create_finish_ok _ _ _ _ _ _ _ _ _ _ h).2.2.2.2.2.2.2.2.1
          · split at h
            · split at h
              · exact absurd h (by simp)
              · split at h
                · exact (create_finish_ok _ _ _ _ _ _ _ _ _ _ h).2.2.2.2.2.2.2.2.1
                · exact absurd h (by simp)
            · exact absurd h (by simp)

lemma createvia_ok_timer
    (env : Env) (bh : Option (Nat → Int)) (rendered : List Nat)
    (familyMismatch optTCP : Bool) (timeout udptimeout udpretries destaddr : Nat)
    (r : DnsRequest) (t : CreateTrace)
    (h : dns_request_createvia env bh rendered familyMismatch optTCP timeout
      udptimeout udpretries destaddr = (Except.ok r, t)) :
    t.timerSet = some (timeout,
      (if (optTCP || decide (512 < rendered.length)) then 0
       else deriveUdpTimeout timeout udptimeout udpretries),
      set_timer_kind (if (optTCP || decide (512 < rendered.length)) then 0
       else deriveUdpTimeout timeout udptimeout udpretries)) := by
  simp only [dns_request_createvia] at h
  split at h
  · exact absurd h (by simp)
  · split at h
    · exact absurd h (by simp)
    · split at h
      · exact absurd h (by simp)
      · split at h
        · exact absurd h (by simp)
        · split at h
          · exact absurd h (by simp)
          · split at h
            next q heq =>
              rw [frame_ok_tcp optTCP rendered q heq]
              exact (create_finish_ok _ _ _ _ _ _ _ _ _ _ h).2.2.2.2.2.2.2.2.1
            next e heq =>
              obtain ⟨hof, hlen⟩ := frame_error optTCP rendered e heq
              subst hof
              rw [show (false || decide (512 < rendered.length)) = true by
                simp [hlen]]
              split at h
              · exact absurd h (by simp)
              · split at h
                · exact absurd h (by simp)
                · rw [frame_true_ok rendered] at h
                  exact (create_finish_ok _ _ _ _ _ _ _ _ _ _ h).2.2.2.2.2.2.2.2.1

lemma createraw_udp_send
    (env : Env) (bh : Option (Nat → Int)) (msg : List Nat)
    (optFixedid : Bool) (timeout udptimeout udpretries destaddr : Nat)
    (r : DnsRequest) (t : CreateTrace)
    (hlen : msg.length ≤ 512)
    (h : dns_request_createraw env bh msg false optFixedid timeout udptimeout
      udpretries destaddr = (Except.ok r, t)) :
    t.sends = [(r.query, some destaddr)] := by
  have htcp : (false || decide (512 < msg.length)) = false := by
    simp [Nat.not_lt.mpr hlen]
  simp only [dns_request_createraw, htcp, Bool.false_and, Bool.not_false,
    Bool.false_eq_true, if_false] at h
  split at h
  · exact absurd h (by simp)
  · split at h
    · exact absurd h (by simp)
    · split at h
      · exact absurd h (by simp)
      · split at h
        · exact absurd h (by simp)
        · split at h
          · have hc := create_finish_ok _ _ _ _ _ _ _ _ _ _ h
            have hs := hc.2.2.2.2.2.2.2.2.2.2 (by simp)
            rw [hs.1, hc.2.2.1]
            simp
          · split at h
            · split at h
              · exact absurd h (by simp)
              · split at h
                · have hc := create_finish_ok _ _ _ _ _ _ _ _ _ _ h
                  have hs := hc.2.2.2.2.2.2.2.2.2.2 (by simp)
                  rw [hs.1, hc.2.2.1]
                  simp
                · exact absurd h (by simp)
            · exact absurd h (by simp)

lemma create_finish_retried (env : Env) (tcp connected : Bool)
    (timeout udpt destaddr : Nat) (req : DnsRequest) (t : CreateTrace) :
    ((create_finish env tcp connected timeout udpt destaddr req t).2).retriedNewTcp =
      t.retriedNewTcp := by
  cases hex : env.exiting <;> cases hst : env.setTimerOk <;>
    cases hco : env.connectOk <;> cases tcp <;> cases connected <;>
    simp [create_finish, req_send_m, hex, hst, hco]

lemma create_finish_gdcalls (env : Env) (tcp connected : Bool)
    (timeout udpt destaddr : Nat) (req : DnsRequest) (t : CreateTrace) :
    ((create_finish env tcp connected timeout udpt destaddr req t).2).getDispatchCalls =
      t.getDispatchCalls := by
  cases hex : env.exiting <;> cases hst : env.setTimerOk <;>
    cases hco : env.connectOk <;> cases tcp <;> cases connected <;>
    simp [create_finish, req_send_m, hex, hst, hco]

lemma create_finish_arcalls (env : Env) (tcp connected : Bool)
    (timeout udpt destaddr : Nat) (req : DnsRequest) (t : CreateTrace) :
    ((create_finish env tcp connected timeout udpt destaddr req t).2).addresponseCalls =
      t.addresponseCalls := by
  cases hex : env.exiting <;> cases hst : env.setTimerOk <;>
    cases hco : env.connectOk <;> cases tcp <;> cases connected <;>
    simp [create_finish, req_send_m, hex, hst, hco]

/-! Claim C1.  The spec's completion-delivery rule claims the guard
`event != nil ∧ !canceling ∧ !CONNECTING ∧ !SENDING`.  In this source the
guard of `send_if_done` (lines 1155-1160) is only
`request->event != NULL && !request->canceling`; the `CONNECTING` and
`SENDING` bits are not consulted, and `do_cancel` (and `req_response`,
`req_timeout`) can deliver the completion while a connect or send is still
in flight. -/

/-- Claim C1, counterexample: running the posted-cancel handler
`do_cancel` on a request whose connect is still in flight delivers the
`ISC_R_CANCELED` completion even though `CONNECTING` is still set
afterwards (and `canceling` was set on entry), contradicting the claimed
iff-guard in both directions in which it could be read. -/
theorem claim1_counterexample :
    (do_cancel connectingCancelReq).completion = some IscResult.canceled ∧
    (do_cancel connectingCancelReq).req.connecting = true ∧
    connectingCancelReq.canceling = true := by decide

/-- Claim C1, amended: a handler delivers the completion event iff
`request->event != NULL` and `canceling` is clear at the moment its
`send_if_done` call runs; the `CONNECTING`/`SENDING` flags are not part of
the guard.  Concretely: `req_response` and `do_cancel` always reach
`send_if_done` (`do_cancel` clears `canceling` first, so it delivers
whenever the event exists); `req_connected`/`req_senddone` reach it
exactly when `CANCELED` was set or the socket operation failed;
`req_timeout` reaches it except on a tick with a nonzero retry counter.  A
handler whose `send_if_done` guard fails records the result and sends
nothing. -/
theorem claim1_theorem :
    ∀ (r : DnsRequest) (s : IscResult) (buf : List Nat) (ev : TimerEvType),
      ((send_if_done r s).2.isSome = (r.event && !r.canceling)) ∧
      ((req_connected r s).completion.isSome =
        (r.event && !r.canceling &&
          (r.canceled || !(decide (s = IscResult.success))))) ∧
      ((req_senddone r s).completion.isSome =
        (r.event && !r.canceling &&
          (r.canceled || !(decide (s = IscResult.success))))) ∧
      ((req_response r s buf).completion.isSome = (r.event && !r.canceling)) ∧
      ((req_timeout r ev).completion.isSome =
        (r.event && !r.canceling &&
          (decide (ev = TimerEvType.life) || decide (r.udpcount = 0)))) ∧
      ((do_cancel r).completion.isSome = r.event) := by
  intro r s buf ev
  refine ⟨?_, ?_, ?_, ?_, ?_, ?_⟩
  · cases he : r.event <;> cases hg : r.canceling <;>
      simp [send_if_done, he, hg]
  · cases he : r.event <;> cases hg : r.canceling <;> cases hc : r.canceled <;>
      cases ht : r.timedout <;> by_cases hs : s = IscResult.success <;>
      simp [req_connected, send_if_done, req_cancel, req_send_m, he, hg, hc, ht, hs]
  · cases he : r.event <;> cases hg : r.canceling <;> cases hc : r.canceled <;>
      cases ht : r.timedout <;> by_cases hs : s = IscResult.success <;>
      simp [req_senddone, send_if_done, req_cancel, he, hg, hc, ht, hs]
  · cases he : r.event <;> cases hg : r.canceling <;>
      by_cases hs : s = IscResult.success <;>
      simp [req_response, send_if_done, req_cancel, he, hg, hs]
  · cases ev with
    | tick =>
        by_cases hu : r.udpcount = 0 <;> cases hsd : r.sending <;>
          cases he : r.event <;> cases hg : r.canceling <;>
          simp [req_timeout, send_if_done, req_cancel, req_send_m, udpdec,
            hu, hsd, he, hg]
    | life =>
        cases he : r.event <;> cases hg : r.canceling <;>
          simp [req_timeout, send_if_done, req_cancel, he, hg]
  · cases he : r.event <;> cases hc : r.canceled <;>
      simp [do_cancel, send_if_done, req_cancel, he, hc]

/-- Claim C2: `dns_request_cancel` posts the control event iff neither
`canceling` nor `CANCELED` is set, and sets `canceling` when it posts; any
number of consecutive calls posts at most one control event and leaves the
same state as a single call; and a completion is delivered at most once:
`send_if_done` clears the event pointer when it delivers, and `do_cancel`
delivers nothing once the event is gone. -/
theorem claim2_theorem :
    ∀ (r : DnsRequest) (n : Nat) (s : IscResult),
      ((dns_request_cancel r).2 = (!r.canceling && !r.canceled)) ∧
      ((dns_request_cancel r).2 = true →
        (dns_request_cancel r).1.canceling = true) ∧
      ((cancelN r n).2 ≤ 1) ∧
      ((cancelN r (n + 1)).1 = (dns_request_cancel r).1) ∧
      (r.event = false → (do_cancel r).completion = none) ∧
      ((send_if_done r s).2.isSome = true →
        (send_if_done r s).1.event = false) := by
  intro r n s
  refine ⟨?_, ?_, cancelN_le_one r n, cancelN_succ_state r n, ?_, ?_⟩
  · cases hc : r.canceling <;> cases hd : r.canceled <;>
      simp [dns_request_cancel, hc, hd]
  · intro h
    cases hc : r.canceling <;> cases hd : r.canceled <;>
      simp [dns_request_cancel, hc, hd] at h ⊢
  · intro he
    cases hc : r.canceled <;>
      simp [do_cancel, send_if_done, req_cancel, he, hc]
  · intro h
    cases he : r.event <;> cases hg : r.canceling <;>
      simp [send_if_done, he, hg] at h ⊢

/-- Claim C2, witness: evaluating the theorem on a fresh request with an
allocated event (cancel posts and marks `canceling`), and on a request
with no event (the posted-cancel handler delivers nothing). -/
theorem claim2_witness :
    (dns_request_cancel { newRequestModel with event := true }).1.canceling = true ∧
    (do_cancel newRequestModel).completion = none ∧
    (send_if_done { newRequestModel with event := true }
        IscResult.success).1.event = false :=
  ⟨(claim2_theorem { newRequestModel with event := true } 0 IscResult.success).2.1
      (by decide),
   (claim2_theorem newRequestModel 0 IscResult.success).2.2.2.2.1 (by decide),
   (claim2_theorem { newRequestModel with event := true } 0
      IscResult.success).2.2.2.2.2 (by decide)⟩

/-- Claim C3: in both factories, when the caller passes `udpretries > 0`
and `udptimeout = 0` the effective UDP retransmission period is
`max 1 (timeout / (udpretries + 1))` with integer division; a nonzero
caller-supplied `udptimeout` is used unchanged; and every admitted
request's retry counter is initialized to `udpretries`. -/
theorem claim3_theorem :
    ∀ (env : Env) (bh : Option (Nat → Int)) (msg rendered : List Nat)
      (optTCP optFixedid fm : Bool)
      (timeout udptimeout udpretries destaddr : Nat)
      (r : DnsRequest) (t : CreateTrace),
      (udpretries ≠ 0 →
        deriveUdpTimeout timeout 0 udpretries =
          max 1 (timeout / (udpretries + 1))) ∧
      (udptimeout ≠ 0 →
        deriveUdpTimeout timeout udptimeout udpretries = udptimeout) ∧
      (dns_request_createraw env bh msg optTCP optFixedid timeout udptimeout
          udpretries destaddr = (Except.ok r, t) →
        r.udpcount = udpretries) ∧
      (dns_request_createvia env bh rendered fm optTCP timeout udptimeout
          udpretries destaddr = (Except.ok r, t) →
        r.udpcount = udpretries) := by
  intro env bh msg rendered optTCP optFixedid fm timeout udptimeout udpretries
    destaddr r t
  refine ⟨?_, ?_, ?_, ?_⟩
  · intro hr
    unfold deriveUdpTimeout
    rw [if_pos ⟨rfl, hr⟩]
    rcases Nat.eq_zero_or_pos (timeout / (udpretries + 1)) with h0 | h0
    · simp [h0]
    · rw [if_neg (by omega)]
      omega
  · intro hu
    unfold deriveUdpTimeout
    rw [if_neg (by simp [hu])]
  · exact createraw_ok_udpcount env bh msg optTCP optFixedid timeout udptimeout
      udpretries destaddr r t
  · exact createvia_ok_udpcount env bh rendered fm optTCP timeout udptimeout
      udpretries destaddr r t

/-- Claim C3, witness: with `timeout = 9`, `udpretries = 2`,
`udptimeout = 0` the derived period is `max 1 3 = 3`; a caller-supplied
period 4 is kept; and a concrete admitted UDP request has
`udpcount = 2`. -/
theorem claim3_witness :
    deriveUdpTimeout 9 0 2 = max 1 (9 / 3) ∧
    deriveUdpTimeout 9 4 2 = 4 ∧
    ((okReq (dns_request_createraw envAllOk none msg14 false false 9 0 2 9)).getD
        newRequestModel).udpcount = 2 := by
  refine ⟨?_, ?_, ?_⟩
  · exact (claim3_theorem envAllOk none msg14 [] false false false 9 0 2 9
      newRequestModel {}).1 (by decide)
  · exact (claim3_theorem envAllOk none msg14 [] false false false 9 4 2 9
      newRequestModel {}).2.1 (by decide)
  · exact (claim3_theorem envAllOk none msg14 [] false false false 9 0 2 9
      ((okReq (dns_request_createraw envAllOk none msg14 false false 9 0 2 9)).getD
        newRequestModel)
      (dns_request_createraw envAllOk none msg14 false false 9 0 2 9).2).2.2.1
      (by decide)

/-- Claim C4: on a tick event with a nonzero retry counter `req_timeout`
re-issues the send to the saved destination (only when `SENDING` is not
already set) and completes nothing; on a tick with a zero counter and on
any other timer event it sets `TIMEDOUT`, cancels the request, and
delivers `ISC_R_TIMEDOUT` (whenever the event is present and no cancel is
pending); and the counter is post-decremented on every tick event, with
the `unsigned int` wraparound of the source's exact guard
`ev_type == ISC_TIMEREVENT_TICK && udpcount-- != 0`. -/
theorem claim4_theorem :
    ∀ (r : DnsRequest),
      ((req_timeout r TimerEvType.tick).req.udpcount = udpdec r.udpcount) ∧
      ((req_timeout r TimerEvType.life).req.udpcount = r.udpcount) ∧
      (r.udpcount ≠ 0 →
        (req_timeout r TimerEvType.tick).completion = none ∧
        (r.sending = false →
          (req_timeout r TimerEvType.tick).sends =
            [(r.query, some r.destaddr)] ∧
          (req_timeout r TimerEvType.tick).req.sending = true) ∧
        (r.sending = true → (req_timeout r TimerEvType.tick).sends = [])) ∧
      (r.udpcount = 0 →
        (req_timeout r TimerEvType.tick).req.timedout = true ∧
        (req_timeout r TimerEvType.tick).req.canceled = true ∧
        (r.event = true → r.canceling = false →
          (req_timeout r TimerEvType.tick).completion =
            some IscResult.timedout)) ∧
      ((req_timeout r TimerEvType.life).req.timedout = true ∧
       (req_timeout r TimerEvType.life).req.canceled = true ∧
       (r.event = true → r.canceling = false →
         (req_timeout r TimerEvType.life).completion =
           some IscResult.timedout)) := by
  intro r
  refine ⟨?_, ?_, ?_, ?_, ?_⟩
  · by_cases hu : r.udpcount = 0 <;> cases hsd : r.sending <;>
      cases he : r.event <;> cases hg : r.canceling <;>
      simp [req_timeout, send_if_done, req_cancel, req_send_m, hu, hsd, he, hg]
  · cases he : r.event <;> cases hg : r.canceling <;>
      simp [req_timeout, send_if_done, req_cancel, he, hg]
  · intro hu
    refine ⟨?_, ?_, ?_⟩
    · cases hsd : r.sending <;>
        simp [req_timeout, send_if_done, req_cancel, req_send_m, hu, hsd]
    · intro hsd
      simp [req_timeout, send_if_done, req_cancel, req_send_m, hu, hsd]
    · intro hsd
      simp [req_timeout, send_if_done, req_cancel, req_send_m, hu, hsd]
  · intro hu
    refine ⟨?_, ?_, ?_⟩
    · cases he : r.event <;> cases hg : r.canceling <;>
        simp [req_timeout, send_if_done, req_cancel, hu, he, hg]
    · cases he : r.event <;> cases hg : r.canceling <;>
        simp [req_timeout, send_if_done, req_cancel, hu, he, hg]
    · intro he hg
      simp [req_timeout, send_if_done, req_cancel, hu, he, hg]
  · refine ⟨?_, ?_, ?_⟩
    · cases he : r.event <;> cases hg : r.canceling <;>
        simp [req_timeout, send_if_done, req_cancel, he, hg]
    · cases he : r.event <;> cases hg : r.canceling <;>
        simp [req_timeout, send_if_done, req_cancel, he, hg]
    · intro he hg
      simp [req_timeout, send_if_done, req_cancel, he, hg]

/-- Claim C4, witness: evaluating `req_timeout` at concrete requests: a
tick while sending issues nothing but still decrements; a tick while not
sending re-sends to the saved destination; a tick with counter zero wraps
the counter and delivers the timeout; a life event delivers the
timeout. -/
theorem claim4_witness :
    (req_timeout sendingReq TimerEvType.tick).sends = [] ∧
    (req_timeout sendingReq TimerEvType.tick).req.udpcount = 1 ∧
    (req_timeout { sendingReq with sending := false } TimerEvType.tick).sends =
      [([18, 52, 1], some 9)] ∧
    (req_timeout { sendingReq with udpcount := 0 } TimerEvType.tick).completion =
      some IscResult.timedout ∧
    (req_timeout { sendingReq with udpcount := 0 }
        TimerEvType.tick).req.udpcount = 4294967295 ∧
    (req_timeout sendingReq TimerEvType.life).completion =
      some IscResult.timedout := by
  refine ⟨?_, ?_, ?_, ?_, ?_, ?_⟩
  · exact ((claim4_theorem sendingReq).2.2.1 (by decide)).2.2 (by decide)
  · have h := (claim4_theorem sendingReq).1
    simpa using h
  · exact (((claim4_theorem { sendingReq with sending := false }).2.2.1
      (by decide)).2.1 (by decide)).1
  · exact ((claim4_theorem { sendingReq with udpcount := 0 }).2.2.2.1
      (by decide)).2.2 (by decide) (by decide)
  · have h := (claim4_theorem { sendingReq with udpcount := 0 }).1
    simpa using h
  · exact (claim4_theorem sendingReq).2.2.2.2.2.2 (by decide) (by decide)

/-! Claim C5.  The spec says every admitted UDP request's timer is
limited-periodic.  `set_timer` (lines 663-680) picks
`isc_timertype_limited` exactly when the `udpresend` argument is nonzero,
and the factories pass `tcp ? 0 : udptimeout`; when the caller passes both
`udptimeout = 0` and `udpretries = 0` the derived interval stays 0 and an
admitted UDP request gets a one-shot timer. -/

/-- Claim C5, counterexample: a UDP request created with `udptimeout = 0`
and `udpretries = 0` is admitted, and its timer is armed `once`, not
`limited`. -/
theorem claim5_counterexample :
    resultOk rawOnceOut = true ∧
    rawOnceOut.2.timerSet = some (5, 0, TimerKind.once) := by decide

/-- Claim C5, amended: at creation the timer of an admitted request is
armed with absolute timeout `total_timeout` and interval 0 for TCP and the
derived `udp_timeout` for UDP; `set_timer` selects the limited (periodic)
type exactly when the interval passed to it is nonzero, so a UDP request
gets a limited timer iff the derived `udp_timeout` is nonzero — which
holds whenever the caller passed a nonzero `udp_timeout` or a nonzero
`udp_retries` — and a one-shot timer when both are zero. -/
theorem claim5_theorem :
    ∀ (env : Env) (bh : Option (Nat → Int)) (msg rendered : List Nat)
      (optTCP optFixedid fm : Bool)
      (i timeout udptimeout udpretries destaddr : Nat)
      (r : DnsRequest) (t : CreateTrace),
      (set_timer_kind i = TimerKind.limited ↔ i ≠ 0) ∧
      (udptimeout ≠ 0 ∨ udpretries ≠ 0 →
        deriveUdpTimeout timeout udptimeout udpretries ≠ 0) ∧
      (dns_request_createraw env bh msg optTCP optFixedid timeout udptimeout
          udpretries destaddr = (Except.ok r, t) →
        t.timerSet = some (timeout,
          (if (optTCP || decide (512 < msg.length)) then 0
           else deriveUdpTimeout timeout udptimeout udpretries),
          set_timer_kind (if (optTCP || decide (512 < msg.length)) then 0
           else deriveUdpTimeout timeout udptimeout udpretries))) ∧
      (dns_request_createvia env bh rendered fm optTCP timeout udptimeout
          udpretries destaddr = (Except.ok r, t) →
        t.timerSet = some (timeout,
          (if (optTCP || decide (512 < rendered.length)) then 0
           else deriveUdpTimeout timeout udptimeout udpretries),
          set_timer_kind (if (optTCP || decide (512 < rendered.length)) then 0
           else deriveUdpTimeout timeout udptimeout udpretries))) := by
  intro env bh msg rendered optTCP optFixedid fm i timeout udptimeout udpretries
    destaddr r t
  refine ⟨?_, ?_, ?_, ?_⟩
  · by_cases hi : i = 0 <;> simp [set_timer_kind, hi]
  · intro hor
    unfold deriveUdpTimeout
    split
    · show (if timeout / (udpretries + 1) = 0 then 1
        else timeout / (udpretries + 1)) ≠ 0
      split <;> omega
    · next hg =>
        rcases hor with hu | hr
        · exact hu
        · intro h0
          exact hg ⟨h0, hr⟩
  · exact createraw_ok_timer env bh msg optTCP optFixedid timeout udptimeout
      udpretries destaddr r t
  · exact createvia_ok_timer env bh rendered fm optTCP timeout udptimeout
      udpretries destaddr r t

/-- Claim C5, witness: the derived period 3 is nonzero; the concrete UDP
runs of both factories arm a limited timer with interval 3 and absolute
timeout 9, and the concrete forced-TCP run arms a one-shot timer with
interval 0. -/
theorem claim5_witness :
    deriveUdpTimeout 9 0 2 ≠ 0 ∧
    rawUdpOut.2.timerSet = some (9, 3, TimerKind.limited) ∧
    viaUdpOut.2.timerSet = some (9, 3, TimerKind.limited) ∧
    rawTcpOut.2.timerSet = some (5, 0, TimerKind.once) := by
  refine ⟨?_, ?_, ?_, ?_⟩
  · exact (claim5_theorem envAllOk none msg14 msg14 false false false 0 9 0 2 9
      newRequestModel {}).2.1 (Or.inr (by decide))
  · exact ((claim5_theorem envId none msg14 msg14 false false false 0 9 0 2 9
      ((okReq rawUdpOut).getD newRequestModel) rawUdpOut.2).2.2.1
      (by decide)).trans (by decide)
  · exact ((claim5_theorem envAllOk none msg14 msg14 false false false 0 9 0 2 9
      ((okReq viaUdpOut).getD newRequestModel) viaUdpOut.2).2.2.2
      (by decide)).trans (by decide)
  · exact ((claim5_theorem envId none msg14 msg14 true false false 0 5 0 0 9
      ((okReq rawTcpOut).getD newRequestModel) rawTcpOut.2).2.2.1
      (by decide)).trans (by decide)

/-- Claim C6: the wire buffer built by `dns_request_createraw` is the
big-endian `u16` length of the message followed by the message when TCP,
and exactly the message when UDP, in both cases with the message ID
patched big-endian into the first two header bytes (after any length
prefix); the buffer is what the first send transmits; and `req_render`
frames the rendered message the same way, failing with `DNS_R_USETCP` when
a UDP rendering exceeds 512 bytes. -/
theorem claim6_theorem :
    ∀ (env : Env) (bh : Option (Nat → Int)) (msg rendered : List Nat)
      (optTCP optFixedid : Bool) (timeout udptimeout udpretries destaddr : Nat)
      (r : DnsRequest) (t : CreateTrace),
      (dns_request_createraw env bh msg optTCP optFixedid timeout udptimeout
          udpretries destaddr = (Except.ok r, t) →
        r.query =
          (if (optTCP || decide (512 < msg.length)) then putuint16 msg.length
           else []) ++
            ((rawId msg optFixedid env.assignedId >>> 8) &&& 255) ::
            (rawId msg optFixedid env.assignedId &&& 255) :: msg.drop 2) ∧
      (msg.length ≤ 512 →
        dns_request_createraw env bh msg false optFixedid timeout udptimeout
          udpretries destaddr = (Except.ok r, t) →
        t.sends = [(r.query, some destaddr)]) ∧
      (req_render_frame true rendered =
        Except.ok (putuint16 rendered.length ++ rendered)) ∧
      (rendered.length ≤ 512 →
        req_render_frame false rendered = Except.ok rendered) ∧
      (512 < rendered.length →
        req_render_frame false rendered = Except.error IscResult.usetcp) := by
  intro env bh msg rendered optTCP optFixedid timeout udptimeout udpretries
    destaddr r t
  refine ⟨?_, ?_, frame_true_ok rendered, ?_, ?_⟩
  · intro h
    obtain ⟨hq, hl1, hl2⟩ := createraw_ok_query env bh msg optTCP optFixedid
      timeout udptimeout udpretries destaddr r t h
    rcases msg with _ | ⟨m0, msg1⟩
    · simp at hl1
    rcases msg1 with _ | ⟨m1, rest⟩
    · simp at hl1
    have hp : (if (optTCP || decide (512 < (m0 :: m1 :: rest).length)) then 2
        else 0) =
        (if (optTCP || decide (512 < (m0 :: m1 :: rest).length)) then
          putuint16 (m0 :: m1 :: rest).length else []).length := by
      cases (optTCP || decide (512 < (m0 :: m1 :: rest).length)) <;>
        simp [putuint16]
    rw [hp, patchId_cons] at hq
    simpa using hq
  · intro hlen h
    exact createraw_udp_send env bh msg optFixedid timeout udptimeout
      udpretries destaddr r t hlen h
  · intro hlen
    simp [req_render_frame, Nat.not_lt.mpr hlen]
  · intro hlen
    simp [req_render_frame, hlen]

/-- Claim C6, witness: the concrete forced-TCP run builds
`00 0E || (id patched message)` with the assigned ID 0xABCD in bytes 2-3;
the concrete UDP run hands exactly the ID-patched message to send; and the
framing of `req_render` on a 14-byte rendering is as claimed. -/
theorem claim6_witness :
    ((okReq rawTcpOut).getD newRequestModel).query =
      [0, 14, 171, 205, 0, 0, 0, 0, 0, 0, 0, 0, 0, 0, 0, 1] ∧
    rawUdpOut.2.sends =
      [(((okReq rawUdpOut).getD newRequestModel).query, some 9)] ∧
    ((okReq rawUdpOut).getD newRequestModel).query =
      [171, 205, 0, 0, 0, 0, 0, 0, 0, 0, 0, 0, 0, 1] ∧
    req_render_frame false msg14 = Except.ok msg14 := by
  refine ⟨?_, ?_, ?_, ?_⟩
  · exact ((claim6_theorem envId none msg14 msg14 true false 5 0 0 9
      ((okReq rawTcpOut).getD newRequestModel) rawTcpOut.2).1
      (by decide)).trans (by decide)
  · exact (claim6_theorem envId none msg14 msg14 false false 9 0 2 9
      ((okReq rawUdpOut).getD newRequestModel) rawUdpOut.2).2.1
      (by decide) (by decide)
  · exact ((claim6_theorem envId none msg14 msg14 false false 9 0 2 9
      ((okReq rawUdpOut).getD newRequestModel) rawUdpOut.2).1
      (by decide)).trans (by decide)
  · exact (claim6_theorem envId none msg14 msg14 false false 9 0 2 9
      newRequestModel {}).2.2.2.1 (by decide)

/-- Claim C7: in `dns_request_createraw` with `FIXED_ID` set, when the
first response-slot registration fails the engine retries exactly once,
obtaining a fresh dispatch with `newtcp = true` and `connected` reset to
false (so on TCP the retry issues a fresh connect); if the retry also
fails, creation fails and the partially built request is destroyed. -/
theorem claim7_theorem :
    ∀ (env : Env) (bh : Option (Nat → Int)) (msg : List Nat)
      (timeout udptimeout udpretries destaddr : Nat),
      isblackholed bh destaddr = false →
      env.timerCreateOk = true →
      12 ≤ msg.length → msg.length ≤ 65535 →
      env.getDispatchOk1 = true →
      env.addresponseOk1 = false →
      ((dns_request_createraw env bh msg true true timeout udptimeout
          udpretries destaddr).2.retriedNewTcp = true) ∧
      (env.getDispatchOk2 = false →
        (dns_request_createraw env bh msg true true timeout udptimeout
          udpretries destaddr).1 = Except.error IscResult.failure ∧
        (dns_request_createraw env bh msg true true timeout udptimeout
          udpretries destaddr).2.destroyed = true) ∧
      (env.getDispatchOk2 = true →
        (dns_request_createraw env bh msg true true timeout udptimeout
          udpretries destaddr).2.getDispatchCalls = 2 ∧
        (dns_request_createraw env bh msg true true timeout udptimeout
          udpretries destaddr).2.addresponseCalls = 2 ∧
        (env.addresponseOk2 = false →
          (dns_request_createraw env bh msg true true timeout udptimeout
            udpretries destaddr).1 = Except.error IscResult.failure ∧
          (dns_request_createraw env bh msg true true timeout udptimeout
            udpretries destaddr).2.destroyed = true) ∧
        (env.addresponseOk2 = true → env.exiting = false →
          env.setTimerOk = true → env.connectOk = true →
          resultOk (dns_request_createraw env bh msg true true timeout
            udptimeout udpretries destaddr) = true ∧
          (dns_request_createraw env bh msg true true timeout udptimeout
            udpretries destaddr).2.connectIssued = true)) := by
  intro env bh msg timeout udptimeout udpretries destaddr hbh htm hl1 hl2 hgd1 har1
  have hlen : ¬(msg.length < 12 ∨ 65535 < msg.length) := by omega
  refine ⟨?_, ?_, ?_⟩
  · cases hgd2 : env.getDispatchOk2 with
    | false =>
        simp [dns_request_createraw, hbh, htm, hgd1, har1, hlen, hgd2]
    | true =>
        cases har2 : env.addresponseOk2 with
        | false =>
            simp [dns_request_createraw, hbh, htm, hgd1, har1, hlen, hgd2, har2]
        | true =>
            simp [dns_request_createraw, hbh, htm, hgd1, har1, hlen, hgd2, har2,
              create_finish_retried]
  · intro hgd2
    refine ⟨?_, ?_⟩ <;>
      simp [dns_request_createraw, hbh, htm, hgd1, har1, hlen, hgd2]
  · intro hgd2
    refine ⟨?_, ?_, ?_, ?_⟩
    · cases har2 : env.addresponseOk2 with
      | false =>
          simp [dns_request_createraw, hbh, htm, hgd1, har1, hlen, hgd2, har2]
      | true =>
          simp [dns_request_createraw, hbh, htm, hgd1, har1, hlen, hgd2, har2,
            create_finish_gdcalls]
    · cases har2 : env.addresponseOk2 with
      | false =>
          simp [dns_request_createraw, hbh, htm, hgd1, har1, hlen, hgd2, har2]
      | true =>
          simp [dns_request_createraw, hbh, htm, hgd1, har1, hlen, hgd2, har2,
            create_finish_arcalls]
    · intro har2
      refine ⟨?_, ?_⟩ <;>
        simp [dns_request_createraw, hbh, htm, hgd1, har1, hlen, hgd2, har2]
    · intro har2 hex hst hco
      refine ⟨?_, ?_⟩ <;>
        simp [dns_request_createraw, create_finish, req_send_m, resultOk,
          hbh, htm, hgd1, har1, hlen, hgd2, har2, hex, hst, hco]

/-- Claim C7, witness: with the first registration failing under
`FIXED_ID` and everything else healthy, the concrete run retries once with
a fresh dispatch and issues the connect; with the second registration also
failing, creation fails and the request is destroyed. -/
theorem claim7_witness :
    (dns_request_createraw envRetry none msg14 true true 5 0 0 9).2.retriedNewTcp
      = true ∧
    resultOk (dns_request_createraw envRetry none msg14 true true 5 0 0 9)
      = true ∧
    (dns_request_createraw envRetry none msg14 true true 5 0 0 9).2.connectIssued
      = true ∧
    (dns_request_createraw { envRetry with addresponseOk2 := false } none msg14
      true true 5 0 0 9).1 = Except.error IscResult.failure ∧
    (dns_request_createraw { envRetry with addresponseOk2 := false } none msg14
      true true 5 0 0 9).2.destroyed = true := by
  have h1 := claim7_theorem envRetry none msg14 5 0 0 9 (by decide) (by decide)
    (by decide) (by decide) (by decide) (by decide)
  have h2 := claim7_theorem { envRetry with addresponseOk2 := false } none msg14
    5 0 0 9 (by decide) (by decide) (by decide) (by decide) (by decide) (by decide)
  refine ⟨h1.1, ?_, ?_, ?_, ?_⟩
  · exact ((h1.2.2 (by decide)).2.2.2 (by decide) (by decide) (by decide)
      (by decide)).1
  · exact ((h1.2.2 (by decide)).2.2.2 (by decide) (by decide) (by decide)
      (by decide)).2
  · exact ((h2.2.2 (by decide)).2.2.1 (by decide)).1
  · exact ((h2.2.2 (by decide)).2.2.1 (by decide)).2

/-- Claim C8: a destination matching the blackhole ACL makes both
factories return `DNS_R_BLACKHOLED` synchronously with an empty effect
trace: no request allocated, no dispatch obtained, nothing linked, no
socket activity, no engine-state change. -/
theorem claim8_theorem :
    ∀ (env : Env) (bh : Option (Nat → Int)) (msg rendered : List Nat)
      (optTCP optFixedid : Bool) (timeout udptimeout udpretries destaddr : Nat),
      isblackholed bh destaddr = true →
      dns_request_createraw env bh msg optTCP optFixedid timeout udptimeout
          udpretries destaddr = (Except.error IscResult.blackholed, {}) ∧
      dns_request_createvia env bh rendered false optTCP timeout udptimeout
          udpretries destaddr = (Except.error IscResult.blackholed, {}) := by
  intro env bh msg rendered optTCP optFixedid timeout udptimeout udpretries
    destaddr hbh
  constructor
  · simp [dns_request_createraw, hbh]
  · simp [dns_request_createvia, hbh]

/-- Claim C8, witness: a concrete all-matching blackhole ACL makes both
factories return `Blackholed` with the empty trace. -/
theorem claim8_witness :
    dns_request_createraw envAllOk (some fun _ => 1) msg14 false false 5 0 0 9 =
      (Except.error IscResult.blackholed, {}) ∧
    dns_request_createvia envAllOk (some fun _ => 1) msg14 false false 5 0 0 9 =
      (Except.error IscResult.blackholed, {}) :=
  claim8_theorem envAllOk (some fun _ => 1) msg14 msg14 false false 5 0 0 9
    (by decide)

/-- Claim C9: when the engine is already `exiting` at the registration
point, both factories fail synchronously with `ISC_R_SHUTTINGDOWN`; the
request is never linked, `iref` is never incremented, the partially built
request is destroyed, and no completion is delivered for it. -/
theorem claim9_theorem :
    ∀ (env : Env) (bh : Option (Nat → Int)) (msg rendered : List Nat)
      (optTCP optFixedid : Bool) (timeout udptimeout udpretries destaddr : Nat),
      env.exiting = true →
      isblackholed bh destaddr = false →
      env.timerCreateOk = true →
      12 ≤ msg.length → msg.length ≤ 65535 →
      env.getDispatchOk1 = true → env.getDispatchOk2 = true →
      env.addresponseOk1 = true → env.addresponseOk2 = true →
      ((dns_request_createraw env bh msg optTCP optFixedid timeout udptimeout
          udpretries destaddr).1 = Except.error IscResult.shuttingdown ∧
       (dns_request_createraw env bh msg optTCP optFixedid timeout udptimeout
          udpretries destaddr).2.everLinked = false ∧
       (dns_request_createraw env bh msg optTCP optFixedid timeout udptimeout
          udpretries destaddr).2.everIref = false ∧
       (dns_request_createraw env bh msg optTCP optFixedid timeout udptimeout
          udpretries destaddr).2.destroyed = true ∧
       (dns_request_createraw env bh msg optTCP optFixedid timeout udptimeout
          udpretries destaddr).2.completionSent = false) ∧
      ((dns_request_createvia env bh rendered false optTCP timeout udptimeout
          udpretries destaddr).1 = Except.error IscResult.shuttingdown ∧
       (dns_request_createvia env bh rendered false optTCP timeout udptimeout
          udpretries destaddr).2.everLinked = false ∧
       (dns_request_createvia env bh rendered false optTCP timeout udptimeout
          udpretries destaddr).2.everIref = false ∧
       (dns_request_createvia env bh rendered false optTCP timeout udptimeout
          udpretries destaddr).2.destroyed = true ∧
       (dns_request_createvia env bh rendered false optTCP timeout udptimeout
          udpretries destaddr).2.completionSent = false) := by
  intro env bh msg rendered optTCP optFixedid timeout udptimeout udpretries
    destaddr hex hbh htm hl1 hl2 hgd1 hgd2 har1 har2
  have hlen : ¬(msg.length < 12 ∨ 65535 < msg.length) := by omega
  constructor
  · refine ⟨?_, ?_, ?_, ?_, ?_⟩ <;>
      simp [dns_request_createraw, create_finish, hex, hbh, htm, hlen, hgd1,
        hgd2, har1, har2]
  · rcases hf : req_render_frame optTCP rendered with e | q
    · refine ⟨?_, ?_, ?_, ?_, ?_⟩ <;>
        simp [dns_request_createvia, create_finish, frame_true_ok, hex, hbh,
          htm, hgd1, hgd2, har1, har2, hf]
    · refine ⟨?_, ?_, ?_, ?_, ?_⟩ <;>
        simp [dns_request_createvia, create_finish, hex, hbh, htm, hgd1, hgd2,
          har1, har2, hf]

/-- Claim C9, witness: the concrete exiting-engine runs of both factories
return `ShuttingDown` with nothing linked, no `iref`, the request
destroyed, and no completion sent. -/
theorem claim9_witness :
    (dns_request_createraw envExit none msg14 false false 5 0 0 9).1 =
      Except.error IscResult.shuttingdown ∧
    (dns_request_createraw envExit none msg14 false false 5 0 0 9).2.everIref =
      false ∧
    (dns_request_createvia envExit none msg14 false false 5 0 0 9).1 =
      Except.error IscResult.shuttingdown ∧
    (dns_request_createvia envExit none msg14 false false 5 0 0 9).2.everLinked =
      false := by
  have h := claim9_theorem envExit none msg14 msg14 false false 5 0 0 9
    (by decide) (by decide) (by decide) (by decide) (by decide) (by decide)
    (by decide) (by decide) (by decide)
  exact ⟨h.1.1, h.1.2.2.1, h.2.1, h.2.2.1⟩

/-- Claim C10: a request created over TCP by attaching to an
already-connected TCP dispatch (`connected` true at creation, registration
succeeding on the first attempt) never gets the `DNS_REQUEST_F_TCP` flag —
the factories set it only on the path that issues `connect` — so
`dns_request_usedtcp` returns false for it even though its query went over
TCP (the first send is issued directly); when the TCP dispatch is not yet
connected, the connect path runs and the flag is set. -/
theorem claim10_theorem :
    ∀ (env : Env) (bh : Option (Nat → Int)) (msg rendered : List Nat)
      (optFixedid : Bool) (timeout udptimeout udpretries destaddr : Nat)
      (r : DnsRequest) (t : CreateTrace),
      (env.connectedOut1 = true → env.addresponseOk1 = true →
        dns_request_createraw env bh msg true optFixedid timeout udptimeout
          udpretries destaddr = (Except.ok r, t) →
        dns_request_usedtcp r = false ∧ r.sending = true) ∧
      (env.connectedOut1 = true →
        dns_request_createvia env bh rendered false true timeout udptimeout
          udpretries destaddr = (Except.ok r, t) →
        dns_request_usedtcp r = false ∧ r.sending = true) ∧
      (env.connectedOut1 = false → env.addresponseOk1 = true →
        dns_request_createraw env bh msg true optFixedid timeout udptimeout
          udpretries destaddr = (Except.ok r, t) →
        dns_request_usedtcp r = true) := by
  intro env bh msg rendered optFixedid timeout udptimeout udpretries destaddr r t
  refine ⟨?_, ?_, ?_⟩
  · intro hco1 har1 h
    simp only [dns_request_createraw] at h
    split at h
    · exact absurd h (by simp)
    · split at h
      · exact absurd h (by simp)
      · split at h
        · exact absurd h (by simp)
        · split at h
          · exact absurd h (by simp)
          · split at h
            · have hc := create_finish_ok _ _ _ _ _ _ _ _ _ _ h
              constructor
              · have h5 := hc.2.2.2.2.1
                rw [dns_request_usedtcp, h5]
                simp [newRequestModel, hco1]
              · exact (hc.2.2.2.2.2.2.2.2.2.2 (by simp [hco1])).2
            · next har =>
                simp at har
  · intro hco1 h
    simp only [dns_request_createvia] at h
    split at h
    · exact absurd h (by simp)
    · split at h
      · exact absurd h (by simp)
      · split at h
        · exact absurd h (by simp)
        · split at h
          · exact absurd h (by simp)
          · split at h
            · exact absurd h (by simp)
            · simp only [frame_true_ok] at h
              have hc := create_finish_ok _ _ _ _ _ _ _ _ _ _ h
              constructor
              · have h5 := hc.2.2.2.2.1
                rw [dns_request_usedtcp, h5]
                simp [newRequestModel, hco1]
              · exact (hc.2.2.2.2.2.2.2.2.2.2 (by simp [hco1])).2
  · intro hco1 har1 h
    simp only [dns_request_createraw] at h
    split at h
    · exact absurd h (by simp)
    · split at h
      · exact absurd h (by simp)
      · split at h
        · exact absurd h (by simp)
        · split at h
          · exact absurd h (by simp)
          · split at h
            · have hc := create_finish_ok _ _ _ _ _ _ _ _ _ _ h
              have h5 := hc.2.2.2.2.1
              rw [dns_request_usedtcp, h5]
              simp [newRequestModel, hco1]
            · next har =>
                simp at har

/-- Claim C10, witness: the concrete run attached to an already-connected
TCP dispatch reports `used_tcp = false` and issues the send directly,
while the fresh-connection run reports `used_tcp = true`. -/
theorem claim10_witness :
    dns_request_usedtcp
      ((okReq (dns_request_createraw envConn none msg14 true false 5 0 0 9)).getD
        newRequestModel) = false ∧
    dns_request_usedtcp
      ((okReq (dns_request_createvia envConn none msg14 false true 5 0 0 9)).getD
        newRequestModel) = false ∧
    dns_request_usedtcp
      ((okReq (dns_request_createraw envAllOk none msg14 true false 5 0 0 9)).getD
        newRequestModel) = true := by
  refine ⟨?_, ?_, ?_⟩
  · exact ((claim10_theorem envConn none msg14 msg14 false 5 0 0 9
      ((okReq (dns_request_createraw envConn none msg14 true false 5 0 0 9)).getD
        newRequestModel)
      (dns_request_createraw envConn none msg14 true false 5 0 0 9).2).1
      (by decide) (by decide) (by decide)).1
  · exact ((claim10_theorem envConn none msg14 msg14 false 5 0 0 9
      ((okReq (dns_request_createvia envConn none msg14 false true 5 0 0 9)).getD
        newRequestModel)
      (dns_request_createvia envConn none msg14 false true 5 0 0 9).2).2.1
      (by decide) (by decide)).1
  · exact (claim10_theorem envAllOk none msg14 msg14 false 5 0 0 9
      ((okReq (dns_request_createraw envAllOk none msg14 true false 5 0 0 9)).getD
        newRequestModel)
      (dns_request_createraw envAllOk none msg14 true false 5 0 0 9).2).2.2
      (by decide) (by decide) (by decide)

end DnsReq
